import Mathlib

/-!
Shallow embedding of `src/main.go` of the mooviapi repository (a thin Gin
HTTP façade over the filmigo movie-data clients), together with proofs of
the behavioral claims about its handlers.

Each Gin handler is embedded as a pure function from the request data and
the state of the external clients to a pair of the HTTP response it writes
and the trace of external-client invocations it performs.  Movie records
and search results are opaque payloads (a type parameter `α`), passed
through verbatim as the source does.  Go client errors are modelled as
`Except Unit`, the error value being opaque to the handlers.
-/

namespace Mooviapi

/-- Opaque JSON values a handler places in a response body: string fields,
boolean fields, and records/result lists passed through verbatim from an
external client (the payload type `α`). -/
inductive BodyVal (α : Type) where
  | s : String → BodyVal α
  | b : Bool → BodyVal α
  | payload : α → BodyVal α
deriving DecidableEq

/-- An HTTP response as produced by `c.JSON(status, gin.H{...})` in
src/main.go: a status code and a JSON object body given as its ordered
field list. -/
structure Response (α : Type) where
  status : Nat
  body : List (String × BodyVal α)
deriving DecidableEq

/-- One invocation of an external filmigo client made while handling a
request, with its argument. -/
inductive ClientCall where
  | imdbGetMovie : String → ClientCall
  | omdbSearch : String → ClientCall
  | omdbGetMovie : String → ClientCall
deriving DecidableEq

/-- The imdb client of the filmigo library as the handlers use it: a single
`GetMovie(id)` operation returning a record or an error. -/
structure ImdbClient (α : Type) where
  getMovie : String → Except Unit α

/-- The omdb client of the filmigo library: constructed from an API key and
used through `Search(query)` and `GetMovie(id)`. -/
structure OmdbClient (α : Type) where
  apiKey : String
  search : String → Except Unit α
  getMovie : String → Except Unit α

/-- The `MovieAPI` struct of src/main.go.  The Go fields are pointers; the
omdb handle is the one the handlers compare against nil, so it is embedded
as an `Option`.  The imdb handle is dereferenced unconditionally by its
handler, and the justwatch handle is never used by any handler. -/
structure MovieAPI (α : Type) where
  imdbClient : ImdbClient α
  omdbClient : Option (OmdbClient α)
  justwatchClient : Unit

/-- Go's `strings.HasPrefix(s, pre)`, evaluated over the character lists of
the two strings. -/
def goHasPre (s pre : String) : Bool :=
  pre.data.isPrefixOf s.data

/-- Gin's `c.Query("q")`: the raw query-string value when the parameter is
present, and the empty string when it is absent. -/
def ginQuery (qParam : Option String) : String :=
  qParam.getD ""

/-- `NewMovieAPI` of src/main.go.  It reads `OMDB_API_KEY` (passed here as
`omdbKey`) and builds all three clients unconditionally — the empty-key
case only logs a warning.  The constructors `imdb.NewClient`,
`omdb.NewClient(key)` and `justwatch.NewClient` are external filmigo
library code; they are ordinary Go struct-literal constructors that return
a non-nil pointer for every argument, including an empty key, which the
embedding reflects by taking them as total functions and wrapping the omdb
handle in `some`. -/
def NewMovieAPI {α : Type} (omdbKey : String)
    (imdbNew : Unit → ImdbClient α) (omdbNew : String → OmdbClient α) :
    MovieAPI α :=
  { imdbClient := imdbNew ()
    omdbClient := some (omdbNew omdbKey)
    justwatchClient := () }

/-- The `healthCheck` handler of src/main.go (GET /api/v1/health).  It
writes a fixed four-field body and touches no client. -/
def healthCheck {α : Type} (_api : MovieAPI α) : Response α × List ClientCall :=
  (⟨200, [("status", .s "OK"),
          ("service", .s "filmigo-api"),
          ("version", .s "1.0.0"),
          ("message", .s "Filmigo API is running successfully!")]⟩, [])

/-- The `getMovieByID` handler of src/main.go (GET /api/v1/movies/:id). -/
def getMovieByID {α : Type} (api : MovieAPI α) (id : String) :
    Response α × List ClientCall :=
  if !(goHasPre id "tt") then
    (⟨400, [("error", .s "Invalid IMDB ID format. Must start with 'tt'"),
            ("example", .s "tt0111161")]⟩, [])
  else
    match api.imdbClient.getMovie id with
    | .error _ =>
        (⟨404, [("error", .s "Movie not found"),
                ("id", .s id)]⟩, [.imdbGetMovie id])
    | .ok movie =>
        (⟨200, [("success", .b true),
                ("data", .payload movie)]⟩, [.imdbGetMovie id])

/-- The `searchMovies` handler of src/main.go (GET /api/v1/movies/search). -/
def searchMovies {α : Type} (api : MovieAPI α) (qParam : Option String) :
    Response α × List ClientCall :=
  let query := ginQuery qParam
  if query = "" then
    (⟨400, [("error", .s "Query parameter 'q' is required"),
            ("example", .s "/api/v1/movies/search?q=inception")]⟩, [])
  else
    match api.omdbClient with
    | none =>
        (⟨503, [("error", .s "OMDB service unavailable. API key not configured.")]⟩, [])
    | some client =>
        match client.search query with
        | .error _ =>
            (⟨500, [("error", .s "Search failed"),
                    ("query", .s query)]⟩, [.omdbSearch query])
        | .ok results =>
            (⟨200, [("success", .b true),
                    ("query", .s query),
                    ("results", .payload results)]⟩, [.omdbSearch query])

/-- The `getOMDBMovie` handler of src/main.go (GET /api/v1/omdb/:id). -/
def getOMDBMovie {α : Type} (api : MovieAPI α) (id : String) :
    Response α × List ClientCall :=
  match api.omdbClient with
  | none =>
      (⟨503, [("error", .s "OMDB service unavailable. API key not configured.")]⟩, [])
  | some client =>
      match client.getMovie id with
      | .error _ =>
          (⟨404, [("error", .s "Movie not found in OMDB"),
                  ("id", .s id)]⟩, [.omdbGetMovie id])
      | .ok movie =>
          (⟨200, [("success", .b true),
                  ("source", .s "omdb"),
                  ("data", .payload movie)]⟩, [.omdbGetMovie id])

/-- A request as the CORS middleware observes it: only the method matters
to it. -/
structure HttpRequest where
  method : String
deriving DecidableEq

/-- The outcome of `corsMiddleware` of src/main.go on one request: the
headers it sets on the response, and `some status` exactly when it aborts
the chain (`c.AbortWithStatus`). -/
structure CorsOutcome where
  headers : List (String × String)
  abortStatus : Option Nat
deriving DecidableEq

/-- `corsMiddleware` of src/main.go: sets three CORS headers on every
response and aborts with 204 when the method is OPTIONS. -/
def corsMiddleware (req : HttpRequest) : CorsOutcome :=
  let hs := [("Access-Control-Allow-Origin", "*"),
             ("Access-Control-Allow-Methods", "GET, POST, PUT, DELETE, OPTIONS"),
             ("Access-Control-Allow-Headers", "Content-Type, Authorization")]
  if req.method = "OPTIONS" then ⟨hs, some 204⟩ else ⟨hs, none⟩

/-- The middleware chain around a handler: when `corsMiddleware` aborts,
the handler never runs and the response carries the abort status with an
empty body; otherwise control passes to the handler (`c.Next()`). -/
def runWithCors {α : Type} (req : HttpRequest)
    (handler : HttpRequest → Response α × List ClientCall) :
    Response α × List ClientCall :=
  match (corsMiddleware req).abortStatus with
  | some st => (⟨st, []⟩, [])
  | none => handler req

/-- Presence of a field named `k` in the body of `r`. -/
def Response.hasField {α : Type} (r : Response α) (k : String) : Bool :=
  r.body.any (fun p => p.1 == k)

/-- The body of `r` reports success, i.e. carries a field `success` holding
the boolean `true`. -/
def Response.reportsSuccess {α : Type} (r : Response α) : Bool :=
  r.body.any (fun p =>
    p.1 == "success" &&
      match p.2 with
      | BodyVal.b true => true
      | _ => false)

/-- The envelope invariant of the spec: a body reporting success carries a
`data` or `results` payload field, and a failure response (4xx/5xx status)
carries an `error` field. -/
def envelopeOk {α : Type} (r : Response α) : Prop :=
  (r.reportsSuccess = true →
     (r.hasField "data" = true ∨ r.hasField "results" = true)) ∧
  (400 ≤ r.status → r.hasField "error" = true)

/-- A concrete imdb client whose lookup always succeeds, used to evaluate
the theorems at concrete inputs. -/
def demoImdb : ImdbClient Unit := ⟨fun _ => .ok ()⟩

/-- A concrete omdb client whose operations always succeed. -/
def demoOmdb : OmdbClient Unit := ⟨"key", fun _ => .ok (), fun _ => .ok ()⟩

/-- A concrete API value with both clients configured. -/
def demoApi : MovieAPI Unit := ⟨demoImdb, some demoOmdb, ()⟩

/-- A concrete API value whose omdb handle is nil. -/
def demoApiNoOmdb : MovieAPI Unit := ⟨demoImdb, none, ()⟩

/-- C2: for every path identifier that does not start with "tt", the
movie-by-id operation returns HTTP 400 with a body containing the example
hint "tt0111161", and the imdb client is never invoked (the call trace is
empty). -/
theorem C2_bad_id_400_no_call {α : Type} (api : MovieAPI α) (id : String)
    (h : goHasPre id "tt" = false) :
    (getMovieByID api id).1.status = 400 ∧
    ("example", BodyVal.s "tt0111161") ∈ (getMovieByID api id).1.body ∧
    (getMovieByID api id).2 = [] := by
  simp [getMovieByID, h]

/-- C2 witness: the scenario identifier "xyz123" of the spec. -/
theorem C2_bad_id_400_no_call_witness :
    goHasPre "xyz123" "tt" = false ∧
    ((getMovieByID demoApi "xyz123").1.status = 400 ∧
     ("example", BodyVal.s "tt0111161") ∈ (getMovieByID demoApi "xyz123").1.body ∧
     (getMovieByID demoApi "xyz123").2 = []) :=
  ⟨by decide, C2_bad_id_400_no_call demoApi "xyz123" (by decide)⟩

/-- C3: for every search request whose query parameter `q` is empty or
absent, the search operation returns HTTP 400 and the omdb client is never
invoked (the call trace is empty). -/
theorem C3_empty_query_400_no_call {α : Type} (api : MovieAPI α)
    (qParam : Option String) (h : ginQuery qParam = "") :
    (searchMovies api qParam).1.status = 400 ∧
    (searchMovies api qParam).2 = [] := by
  simp [searchMovies, h]

/-- C3 witness: the absent-parameter case. -/
theorem C3_empty_query_400_no_call_witness :
    ginQuery none = "" ∧
    ((searchMovies demoApi none).1.status = 400 ∧
     (searchMovies demoApi none).2 = []) :=
  ⟨rfl, C3_empty_query_400_no_call demoApi none rfl⟩

/-- C5: the health-check operation returns HTTP 200 with the fixed
four-field body (status, service, version, message), performs no client
call, and its response is independent of the state of the API value —
hence it never fails. -/
theorem C5_health_fixed {α : Type} (api api' : MovieAPI α) :
    healthCheck api = healthCheck api' ∧
    (healthCheck api).1.status = 200 ∧
    (healthCheck api).1.body =
      [("status", BodyVal.s "OK"),
       ("service", BodyVal.s "filmigo-api"),
       ("version", BodyVal.s "1.0.0"),
       ("message", BodyVal.s "Filmigo API is running successfully!")] ∧
    (healthCheck api).2 = [] := by
  simp [healthCheck]

/-- C5 witness: evaluated at a configured and an unconfigured API value. -/
theorem C5_health_fixed_witness :
    healthCheck demoApi = healthCheck demoApiNoOmdb ∧
    (healthCheck demoApi).1.status = 200 ∧
    (healthCheck demoApi).1.body =
      [("status", BodyVal.s "OK"),
       ("service", BodyVal.s "filmigo-api"),
       ("version", BodyVal.s "1.0.0"),
       ("message", BodyVal.s "Filmigo API is running successfully!")] ∧
    (healthCheck demoApi).2 = [] :=
  C5_health_fixed demoApi demoApiNoOmdb

/-- C4: for every identifier starting with "tt", a successful imdb lookup
makes the movie-by-id operation return HTTP 200 with body `success: true`
and `data` equal exactly to the record the client returned, and a failed
lookup makes it return HTTP 404. -/
theorem C4_tt_id_lookup {α : Type} (api : MovieAPI α) (id : String)
    (h : goHasPre id "tt" = true) :
    (∀ m, api.imdbClient.getMovie id = Except.ok m →
       getMovieByID api id =
         (⟨200, [("success", BodyVal.b true), ("data", BodyVal.payload m)]⟩,
          [ClientCall.imdbGetMovie id])) ∧
    (∀ e, api.imdbClient.getMovie id = Except.error e →
       (getMovieByID api id).1.status = 404) := by
  constructor
  · intro m hm
    simp [getMovieByID, h, hm]
  · intro e he
    simp [getMovieByID, h, he]

/-- C4 witness: the scenario identifier "tt0111161" of the spec against a
client whose lookup succeeds. -/
theorem C4_tt_id_lookup_witness :
    goHasPre "tt0111161" "tt" = true ∧
    getMovieByID demoApi "tt0111161" =
      (⟨200, [("success", BodyVal.b true), ("data", BodyVal.payload ())]⟩,
       [ClientCall.imdbGetMovie "tt0111161"]) :=
  ⟨by decide, (C4_tt_id_lookup demoApi "tt0111161" (by decide)).1 () rfl⟩

/-- C6: every response of the movie-by-id, search and omdb-lookup handlers
satisfies the envelope invariant: a body reporting success carries a data
or results payload, and a failure response carries an error field. -/
theorem C6_envelope_invariant {α : Type} (api : MovieAPI α) (id : String)
    (qParam : Option String) :
    envelopeOk (getMovieByID api id).1 ∧
    envelopeOk (searchMovies api qParam).1 ∧
    envelopeOk (getOMDBMovie api id).1 := by
  refine ⟨?_, ?_, ?_⟩
  · cases hb : goHasPre id "tt"
    · simp [envelopeOk, getMovieByID, hb, Response.hasField, Response.reportsSuccess]
    · rcases hm : api.imdbClient.getMovie id with e | m <;>
        simp [envelopeOk, getMovieByID, hb, hm, Response.hasField,
          Response.reportsSuccess]
  · by_cases hq : ginQuery qParam = ""
    · simp [envelopeOk, searchMovies, hq, Response.hasField, Response.reportsSuccess]
    · cases ho : api.omdbClient with
      | none =>
          simp [envelopeOk, searchMovies, hq, ho, Response.hasField,
            Response.reportsSuccess]
      | some c =>
          rcases hs : c.search (ginQuery qParam) with e | r <;>
            simp [envelopeOk, searchMovies, hq, ho, hs, Response.hasField,
              Response.reportsSuccess]
  · cases ho : api.omdbClient with
    | none =>
        simp [envelopeOk, getOMDBMovie, ho, Response.hasField,
          Response.reportsSuccess]
    | some c =>
        rcases hg : c.getMovie id with e | m <;>
          simp [envelopeOk, getOMDBMovie, ho, hg, Response.hasField,
            Response.reportsSuccess]

/-- C7: the CORS middleware sets Access-Control-Allow-Origin to "*" on
every request, and an OPTIONS request short-circuits with 204 without the
handler ever running (the composed result is the bare 204 response with no
client call, whatever the handler is). -/
theorem C7_cors_star_options_204 {α : Type} (req : HttpRequest)
    (handler : HttpRequest → Response α × List ClientCall) :
    ("Access-Control-Allow-Origin", "*") ∈ (corsMiddleware req).headers ∧
    (req.method = "OPTIONS" →
       (corsMiddleware req).abortStatus = some 204 ∧
       runWithCors req handler = (⟨204, []⟩, [])) := by
  constructor
  · by_cases h : req.method = "OPTIONS" <;> simp [corsMiddleware, h]
  · intro h
    simp [corsMiddleware, runWithCors, h]

/-- C7 witness: an OPTIONS request against a handler that would answer
200. -/
theorem C7_cors_star_options_204_witness :
    ("Access-Control-Allow-Origin", "*") ∈ (corsMiddleware ⟨"OPTIONS"⟩).headers ∧
    ((corsMiddleware ⟨"OPTIONS"⟩).abortStatus = some 204 ∧
     runWithCors ⟨"OPTIONS"⟩
       (fun _ => ((⟨200, []⟩ : Response Unit), [])) = (⟨204, []⟩, [])) :=
  ⟨(C7_cors_star_options_204 ⟨"OPTIONS"⟩
      (fun _ => ((⟨200, []⟩ : Response Unit), []))).1,
   (C7_cors_star_options_204 ⟨"OPTIONS"⟩
      (fun _ => ((⟨200, []⟩ : Response Unit), []))).2 rfl⟩

/-- A concrete imdb constructor, standing for `imdb.NewClient`. -/
def demoImdbNew : Unit → ImdbClient Unit := fun _ => demoImdb

/-- A concrete omdb constructor, standing for `omdb.NewClient`: it stores
the key it is given and always succeeds. -/
def demoOmdbNew : String → OmdbClient Unit :=
  fun k => ⟨k, fun _ => .ok (), fun _ => .ok ()⟩

/-- C8: an API built by `NewMovieAPI` has a non-nil omdb handle for every
key, the empty key included, so the nil-client 503 branches of the search
and omdb-lookup handlers are unreachable: neither handler ever answers 503
on such an API. -/
theorem C8_omdb_handle_nonnil {α : Type} (key : String)
    (imdbNew : Unit → ImdbClient α) (omdbNew : String → OmdbClient α) :
    (NewMovieAPI key imdbNew omdbNew).omdbClient.isSome = true ∧
    (∀ qParam : Option String,
       (searchMovies (NewMovieAPI key imdbNew omdbNew) qParam).1.status ≠ 503) ∧
    (∀ id : String,
       (getOMDBMovie (NewMovieAPI key imdbNew omdbNew) id).1.status ≠ 503) := by
  refine ⟨rfl, ?_, ?_⟩
  · intro qParam
    by_cases hq : ginQuery qParam = ""
    · simp [searchMovies, hq]
    · rcases hs : (omdbNew key).search (ginQuery qParam) with e | r <;>
        simp [searchMovies, NewMovieAPI, hq, hs]
  · intro id
    rcases hg : (omdbNew key).getMovie id with e | m <;>
      simp [getOMDBMovie, NewMovieAPI, hg]

/-- C8 witness: the empty-key API at the spec's scenario inputs. -/
theorem C8_omdb_handle_nonnil_witness :
    (NewMovieAPI "" demoImdbNew demoOmdbNew).omdbClient.isSome = true ∧
    (searchMovies (NewMovieAPI "" demoImdbNew demoOmdbNew)
       (some "inception")).1.status ≠ 503 ∧
    (getOMDBMovie (NewMovieAPI "" demoImdbNew demoOmdbNew)
       "tt0111161").1.status ≠ 503 :=
  ⟨(C8_omdb_handle_nonnil "" demoImdbNew demoOmdbNew).1,
   (C8_omdb_handle_nonnil "" demoImdbNew demoOmdbNew).2.1 (some "inception"),
   (C8_omdb_handle_nonnil "" demoImdbNew demoOmdbNew).2.2 "tt0111161"⟩

/-- C9: the emptiness check of `q` precedes the nil-client check in the
search handler: an empty or absent `q` yields HTTP 400 and not 503 even
when the omdb handle is nil. -/
theorem C9_empty_q_precedes_nil_check {α : Type} (api : MovieAPI α)
    (qParam : Option String) (_hnil : api.omdbClient = none)
    (hq : ginQuery qParam = "") :
    (searchMovies api qParam).1.status = 400 ∧
    (searchMovies api qParam).1.status ≠ 503 := by
  simp [searchMovies, hq]

/-- C9 witness: an absent `q` against the nil-omdb API. -/
theorem C9_empty_q_precedes_nil_check_witness :
    demoApiNoOmdb.omdbClient = none ∧ ginQuery none = "" ∧
    ((searchMovies demoApiNoOmdb none).1.status = 400 ∧
     (searchMovies demoApiNoOmdb none).1.status ≠ 503) :=
  ⟨rfl, rfl, C9_empty_q_precedes_nil_check demoApiNoOmdb none rfl rfl⟩

/-- C10: the handlers are deterministic: two API values that agree on the
client results relevant to a request (the imdb lookup at the identifier,
the presence of the omdb handle, and the omdb search and lookup results at
the request's query and identifier) produce identical responses on every
handler, whatever else (such as the stored API key) differs. -/
theorem C10_handlers_deterministic {α : Type} (api api' : MovieAPI α)
    (id : String) (qParam : Option String)
    (h1 : api.imdbClient.getMovie id = api'.imdbClient.getMovie id)
    (h2 : api.omdbClient.isSome = api'.omdbClient.isSome)
    (h3 : ∀ c c', api.omdbClient = some c → api'.omdbClient = some c' →
       c.search (ginQuery qParam) = c'.search (ginQuery qParam) ∧
       c.getMovie id = c'.getMovie id) :
    healthCheck api = healthCheck api' ∧
    getMovieByID api id = getMovieByID api' id ∧
    searchMovies api qParam = searchMovies api' qParam ∧
    getOMDBMovie api id = getOMDBMovie api' id := by
  have hcases :
      (api.omdbClient = none ∧ api'.omdbClient = none) ∨
      (∃ c c', api.omdbClient = some c ∧ api'.omdbClient = some c') := by
    cases ho : api.omdbClient with
    | none =>
        cases ho' : api'.omdbClient with
        | none => exact Or.inl ⟨rfl, rfl⟩
        | some c' => rw [ho, ho'] at h2; simp at h2
    | some c =>
        cases ho' : api'.omdbClient with
        | none => rw [ho, ho'] at h2; simp at h2
        | some c' => exact Or.inr ⟨c, c', rfl, rfl⟩
  refine ⟨rfl, ?_, ?_, ?_⟩
  · simp only [getMovieByID, h1]
  · rcases hcases with ⟨ho, ho'⟩ | ⟨c, c', ho, ho'⟩
    · simp only [searchMovies, ho, ho']
    · simp only [searchMovies, ho, ho', (h3 c c' ho ho').1]
  · rcases hcases with ⟨ho, ho'⟩ | ⟨c, c', ho, ho'⟩
    · simp only [getOMDBMovie, ho, ho']
    · simp only [getOMDBMovie, ho, ho', (h3 c c' ho ho').2]

/-- A second concrete omdb client: same behaviour as `demoOmdb`, different
stored API key. -/
def demoOmdbOtherKey : OmdbClient Unit :=
  ⟨"other-key", fun _ => .ok (), fun _ => .ok ()⟩

/-- A second concrete API value differing from `demoApi` only in the omdb
client's stored key. -/
def demoApiOtherKey : MovieAPI Unit := ⟨demoImdb, some demoOmdbOtherKey, ()⟩

/-- C10 witness: two APIs with distinct stored keys but agreeing client
results produce identical responses. -/
theorem C10_handlers_deterministic_witness :
    healthCheck demoApi = healthCheck demoApiOtherKey ∧
    getMovieByID demoApi "tt0111161" = getMovieByID demoApiOtherKey "tt0111161" ∧
    searchMovies demoApi (some "inception") =
      searchMovies demoApiOtherKey (some "inception") ∧
    getOMDBMovie demoApi "tt0111161" = getOMDBMovie demoApiOtherKey "tt0111161" :=
  C10_handlers_deterministic demoApi demoApiOtherKey "tt0111161" (some "inception")
    rfl rfl
    (by
      intro c c' hc hc'
      have hc2 : some demoOmdb = some c := hc
      have hc2' : some demoOmdbOtherKey = some c' := hc'
      cases Option.some.inj hc2
      cases Option.some.inj hc2'
      exact ⟨rfl, rfl⟩)

/-- C1 (exhibiting the code bug): `NewMovieAPI` with the OMDB key unset
(the empty string) still produces a non-nil omdb client, so the search
handler given the valid query "inception" on such an API never answers the
claimed 503: it answers 500 when the backend call fails and 200 when it
succeeds. -/
theorem C1_no_key_search_not_503 {α : Type}
    (imdbNew : Unit → ImdbClient α) (omdbNew : String → OmdbClient α) :
    (searchMovies (NewMovieAPI "" imdbNew omdbNew)
       (some "inception")).1.status ≠ 503 ∧
    ((searchMovies (NewMovieAPI "" imdbNew omdbNew)
        (some "inception")).1.status = 500 ∨
     (searchMovies (NewMovieAPI "" imdbNew omdbNew)
        (some "inception")).1.status = 200) := by
  rcases hs : (omdbNew "").search "inception" with e | r <;>
    simp [searchMovies, NewMovieAPI, ginQuery, hs]

end Mooviapi
